import Mathlib

/-!
# Verification of the L5 type checker (`src/Liron/src/L5/L5-typecheck.ts`)

This file is a shallow embedding, in Lean 4, of the L5 static type checker.
The typing engine (`typeofExp` and the per-form rules, the unifier
`unifyTypes`, the substitution function `substituteTypeVars`, the primitive
signature table `typeofPrim`, the literal rules `typeofLit` /
`typeofCompoundSExp`, `typeofDefine` and `typeofProgram`) is translated
directly from `L5-typecheck.ts`.  The support modules that the repository
imports but that are not part of the given sources (`TExp.ts`, `TEnv.ts`,
`shared/result.ts`, the pretty printers) are modelled from the design
specification, as flagged in their doc comments.
-/

set_option maxRecDepth 4000

namespace L5

/-- Modelled from the spec: `shared/result.ts` is absent from the sources.
A `Result` is either a success carrying a value or a failure carrying a
descriptive message string (spec §6). -/
inductive Result (α : Type) where
  | Ok (value : α)
  | Failure (message : String)
deriving DecidableEq

/-- Modelled from the spec: monadic chaining of `Result` (`bind` in
`shared/result.ts`): failures short-circuit. -/
def Result.bind {α β : Type} : Result α → (α → Result β) → Result β
  | .Ok v, f => f v
  | .Failure m, _ => .Failure m

/-- Modelled from the spec: the `isOk` predicate of `shared/result.ts`. -/
def Result.isOk {α : Type} : Result α → Bool
  | .Ok _ => true
  | .Failure _ => false

/-- Modelled from the spec: the type-expression data model of `TExp.ts`
(spec §3): atomic types Number, Boolean, String, Void, Literal; the
structural pair type; the arrow (procedure) type with an ordered parameter
list and a result; and a named type variable with no mutable binding cell. -/
inductive TExp where
  | NumTExp
  | BoolTExp
  | StrTExp
  | VoidTExp
  | LiteralTExp
  | PairTExp (first second : TExp)
  | ProcTExp (paramTEs : List TExp) (returnTE : TExp)
  | TVar (var : String)

mutual

/-- Deep structural equality on type expressions: the embedding of ramda's
`equals` as used throughout `L5-typecheck.ts` (`checkEqualType`,
`unifyTypes`).  Two type variables are equal exactly when their names are
(spec §3). -/
def teq : TExp → TExp → Bool
  | .NumTExp, .NumTExp => true
  | .BoolTExp, .BoolTExp => true
  | .StrTExp, .StrTExp => true
  | .VoidTExp, .VoidTExp => true
  | .LiteralTExp, .LiteralTExp => true
  | .PairTExp f1 s1, .PairTExp f2 s2 => teq f1 f2 && teq s1 s2
  | .ProcTExp ps1 r1, .ProcTExp ps2 r2 => teqList ps1 ps2 && teq r1 r2
  | .TVar v1, .TVar v2 => decide (v1 = v2)
  | _, _ => false

def teqList : List TExp → List TExp → Bool
  | [], [] => true
  | t :: ts, u :: us => teq t u && teqList ts us
  | _, _ => false

end

mutual

theorem teq_refl : ∀ (a : TExp), teq a a = true
  | .NumTExp => rfl
  | .BoolTExp => rfl
  | .StrTExp => rfl
  | .VoidTExp => rfl
  | .LiteralTExp => rfl
  | .TVar v => by simp [teq]
  | .PairTExp f s => by simp [teq, teq_refl f, teq_refl s]
  | .ProcTExp ps r => by simp [teq, teqList_refl ps, teq_refl r]

theorem teqList_refl : ∀ (as : List TExp), teqList as as = true
  | [] => rfl
  | t :: ts => by simp [teqList, teq_refl t, teqList_refl ts]

end

mutual

theorem teq_sound : ∀ (a b : TExp), teq a b = true → a = b
  | .NumTExp, b => by cases b <;> simp [teq]
  | .BoolTExp, b => by cases b <;> simp [teq]
  | .StrTExp, b => by cases b <;> simp [teq]
  | .VoidTExp, b => by cases b <;> simp [teq]
  | .LiteralTExp, b => by cases b <;> simp [teq]
  | .TVar v, b => by cases b <;> simp [teq]
  | .PairTExp f1 s1, b => by
      cases b <;> simp [teq, Bool.and_eq_true]
      rename_i f2 s2
      intro h1 h2
      exact ⟨teq_sound f1 f2 h1, teq_sound s1 s2 h2⟩
  | .ProcTExp ps1 r1, b => by
      cases b <;> simp [teq, Bool.and_eq_true]
      rename_i ps2 r2
      intro h1 h2
      exact ⟨teqList_sound ps1 ps2 h1, teq_sound r1 r2 h2⟩

theorem teqList_sound : ∀ (as bs : List TExp), teqList as bs = true → as = bs
  | [], bs => by cases bs <;> simp [teqList]
  | t :: ts, bs => by
      cases bs <;> simp [teqList, Bool.and_eq_true]
      rename_i u us
      intro h1 h2
      exact ⟨teq_sound t u h1, teqList_sound ts us h2⟩

end

/-- `teq` decides propositional equality, so ramda's structural `equals`
and Lean's `=` agree on embedded type expressions. -/
theorem teq_iff (a b : TExp) : teq a b = true ↔ a = b :=
  ⟨teq_sound a b, fun h => h ▸ teq_refl a⟩

/-- `teqList` decides propositional equality of type-expression lists. -/
theorem teqList_iff (as bs : List TExp) : teqList as bs = true ↔ as = bs :=
  ⟨teqList_sound as bs, fun h => h ▸ teqList_refl as⟩

instance : DecidableEq TExp :=
  fun a b => decidable_of_iff (teq a b = true) (teq_iff a b)

/-- Modelled from the spec: `isAtomicTExp` of `TExp.ts` — an atomic type is
Number, Boolean, String, Void or Literal (spec §3). -/
def isAtomicTExp : TExp → Bool
  | .NumTExp | .BoolTExp | .StrTExp | .VoidTExp | .LiteralTExp => true
  | _ => false

/-- Modelled from the spec: `isTVar` of `TExp.ts`. -/
def isTVar : TExp → Bool
  | .TVar _ => true
  | _ => false

/-- Modelled from the spec: `isPairTExp` of `TExp.ts`. -/
def isPairTExp : TExp → Bool
  | .PairTExp _ _ => true
  | _ => false

/-- Modelled from the spec: `isProcTExp` of `TExp.ts`. -/
def isProcTExp : TExp → Bool
  | .ProcTExp _ _ => true
  | _ => false

/-- The substitution map of `typeofApp`: a `Map<string, TExp>`, modelled as
an association list where insertion prepends (the checker only inserts a
name that is not yet bound, so lookup-first agrees with `Map`). -/
abbrev Subst := List (String × TExp)

/-- Lookup in the substitution map (`substitution.get(name)`). -/
def substLookup : Subst → String → Option TExp
  | [], _ => none
  | (k, t) :: rest, v => if k = v then some t else substLookup rest v

/-- `unifyTypes(expected, actual, substitution)` from `L5-typecheck.ts`
(lines 295-315).  The JS version mutates the map and returns a boolean; we
return the pair (boolean, updated map).  `equals` of ramda is deep
structural equality, embedded as decidable equality on `TExp`.
Note `if (existing)` in JS tests truthiness; a `TExp` object is always
truthy, so it is `Option.isSome`. -/
def unifyTypes : TExp → TExp → Subst → Bool × Subst
  | .TVar v, actual, subst =>
    match substLookup subst v with
    | some existing => (teq existing actual, subst)
    | none => (true, (v, actual) :: subst)
  | expected, actual, subst =>
    if isAtomicTExp expected && isAtomicTExp actual then
      (teq expected actual, subst)
    else
      match expected, actual with
      | .PairTExp f1 s1, .PairTExp f2 s2 =>
        -- JS `&&` short-circuits: the second component is only unified when
        -- the first succeeded, and bindings from the first call persist.
        let r1 := unifyTypes f1 f2 subst
        if r1.1 then unifyTypes s1 s2 r1.2 else (false, r1.2)
      | e, a => (teq e a, subst)

mutual

/-- `substituteTypeVars(type, substitution)` from `L5-typecheck.ts`
(lines 317-337): replace each type variable by its binding if any
(`substitution.get(type.var) || type`; a `TExp` is never falsy, so this is
`getD`), recursing into pair and arrow structure. -/
def substituteTypeVars : TExp → Subst → TExp
  | .TVar v, subst => (substLookup subst v).getD (.TVar v)
  | .PairTExp f s, subst =>
    .PairTExp (substituteTypeVars f subst) (substituteTypeVars s subst)
  | .ProcTExp ps r, subst =>
    .ProcTExp (substituteTypeVarsList ps subst) (substituteTypeVars r subst)
  | t, _ => t

/-- The `paramTEs.map(p => substituteTypeVars(p, substitution))` of the
arrow case, written as explicit recursion over the list. -/
def substituteTypeVarsList : List TExp → Subst → List TExp
  | [], _ => []
  | t :: ts, subst => substituteTypeVars t subst :: substituteTypeVarsList ts subst

end

/-- Modelled from the spec: the quoted S-expression values of `L5-value.ts`
(absent from the sources; the L4 grammar in `src/src/L4/L4-ast.ts` lists
`symbol | number | bool | string | ( <sexp>* )`).  The constructors mirror
the JavaScript runtime tags inspected by `typeofCompoundSExp`: `num`,
`bool`, `str` are primitive values (`typeof` gives `'number'`, `'boolean'`,
`'string'`); `sym` is a `SymbolSExp` object, `empty` an `EmptySExp` object
and `compound` a `CompoundSExp` object with fields `val1` and `val2`. -/
inductive SExpValue where
  | num (n : Int)
  | bool (b : Bool)
  | str (s : String)
  | sym (s : String)
  | empty
  | compound (val1 val2 : SExpValue)
deriving DecidableEq

/-- `isCompoundSExp` of `L5-value.ts`, modelled from the spec. -/
def isCompoundSExp : SExpValue → Bool
  | .compound _ _ => true
  | _ => false

/-- A typed variable declaration (`VarDecl` of the L5 AST): the variable
name and its mandatory declared type.  The L5 AST module is absent from
the sources; its shape follows `src/src/L4/L4-ast.ts` with the type
annotations the spec makes mandatory on every binder. -/
abbrev VarDecl := String × TExp

/-- The L5 expression AST.  Modelled from the spec and from
`src/src/L4/L4-ast.ts` (which is in the sources): L5 is the same grammar
with a type annotation on every `VarDecl` and a declared return type on
every `ProcExp`.  `SetExp` is part of the grammar (L4-ast line 80) even
though the type checker has no rule for it. -/
inductive CExp where
  | NumExp (val : Int)
  | BoolExp (val : Bool)
  | StrExp (val : String)
  | PrimOp (op : String)
  | VarRef (var : String)
  | AppExp (rator : CExp) (rands : List CExp)
  | IfExp (test thenE altE : CExp)
  | ProcExp (args : List (String × TExp)) (returnTE : TExp) (body : List CExp)
  | LetExp (bindings : List (String × TExp × CExp)) (body : List CExp)
  | LitExp (val : SExpValue)
  | LetrecExp (bindings : List (String × TExp × CExp)) (body : List CExp)
  | SetExp (var : String) (val : CExp)

/-- A `let`/`letrec` binding: the declared variable (name and declared
type) and the value expression. -/
abbrev LBind := String × TExp × CExp

/-- A top-level form: `Exp = DefineExp | CExp` of the AST. -/
inductive Exp where
  | DefineExp (v : String) (texp : TExp) (val : CExp)
  | C (e : CExp)

/-- `Parsed = Exp | Program`: the argument type of `typeofExp`.  The union
is flattened into three constructors (a `CExp`, a define form, or a whole
program). -/
inductive Parsed where
  | C (e : CExp)
  | DefineExp (v : String) (texp : TExp) (val : CExp)
  | Program (exps : List Exp)

/-- Modelled from the spec: the type environment of `TEnv.ts` (absent from
the sources; spec §3): an immutable chain of frames, each binding a list
of names to a list of type expressions, extended all-at-once and looked up
innermost-first. -/
inductive TEnv where
  | makeEmptyTEnv
  | makeExtendTEnv (vars : List String) (texps : List TExp) (tenv : TEnv)

/-- Lookup of a name inside one frame, leftmost match first. -/
def frameLookup : List String → List TExp → String → Option TExp
  | v :: vs, t :: ts, x => if v = x then some t else frameLookup vs ts x
  | _, _, _ => none

/-- Modelled from the spec: `applyTEnv` of `TEnv.ts` — walk the chain from
innermost to outermost, returning the first binding or failing with an
unbound-variable error (spec §3, §7). -/
def applyTEnv : TEnv → String → Result TExp
  | .makeEmptyTEnv, v => .Failure ("unbound variable: " ++ v)
  | .makeExtendTEnv vars texps next, v =>
    match frameLookup vars texps v with
    | some te => .Ok te
    | none => applyTEnv next v

mutual

/-- Modelled from the spec: the type pretty-printer `unparseTExp` of
`TExp.ts` is an out-of-scope collaborator used only for diagnostics
(spec §1, §4.1).  `unparseTE` is its underlying total rendering. -/
def unparseTE : TExp → String
  | .NumTExp => "number"
  | .BoolTExp => "boolean"
  | .StrTExp => "string"
  | .VoidTExp => "void"
  | .LiteralTExp => "literal"
  | .TVar v => v
  | .PairTExp f s => "(Pair " ++ unparseTE f ++ " " ++ unparseTE s ++ ")"
  | .ProcTExp ps r => "(" ++ unparseTEList ps ++ " -> " ++ unparseTE r ++ ")"

/-- Parameter lists are rendered `t1 * ... * tn`, and `Empty` when there
are no parameters. -/
def unparseTEList : List TExp → String
  | [] => "Empty"
  | [t] => unparseTE t
  | t :: ts => unparseTE t ++ " * " ++ unparseTEList ts

end

/-- Modelled from the spec: `unparseTExp` returns a `Result` (the checker
always binds its output, `L5-typecheck.ts` lines 24-26); rendering never
fails on the embedded type expressions. -/
def unparseTExp (te : TExp) : Result String := .Ok (unparseTE te)

/-- Modelled from the spec: rendering of quoted values (`valueToString` of
`L5-value.ts`), used only inside diagnostic strings. -/
def valueToString : SExpValue → String
  | .num n => toString n
  | .bool b => if b then "#t" else "#f"
  | .str s => s
  | .sym s => s
  | .empty => "()"
  | .compound a b => "(" ++ valueToString a ++ " . " ++ valueToString b ++ ")"

/-- Rendering of an argument list `(x1 : t1) ... (xn : tn)`. -/
def unparseArgs : List (String × TExp) → String
  | [] => ""
  | [(v, te)] => "(" ++ v ++ " : " ++ unparseTE te ++ ")"
  | (v, te) :: rest => "(" ++ v ++ " : " ++ unparseTE te ++ ") " ++ unparseArgs rest

mutual

/-- Modelled from the spec: the expression pretty-printer (`unparse` of the
L5 AST module) is an out-of-scope collaborator used only for diagnostics
(spec §1).  Its shape follows `unparse` of `src/src/L4/L4-ast.ts`. -/
def unparseC : CExp → String
  | .NumExp n => toString n
  | .BoolExp b => if b then "#t" else "#f"
  | .StrExp s => s
  | .PrimOp op => op
  | .VarRef v => v
  | .IfExp t th a =>
    "(if " ++ unparseC t ++ " " ++ unparseC th ++ " " ++ unparseC a ++ ")"
  | .AppExp r rs => "(" ++ unparseC r ++ " " ++ unparseCList rs ++ ")"
  | .ProcExp args ret body =>
    "(lambda (" ++ unparseArgs args ++ ") : " ++ unparseTE ret ++ " " ++ unparseCList body ++ ")"
  | .LetExp bs body => "(let (" ++ unparseBList bs ++ ") " ++ unparseCList body ++ ")"
  | .LetrecExp bs body => "(letrec (" ++ unparseBList bs ++ ") " ++ unparseCList body ++ ")"
  | .LitExp v => "(quote " ++ valueToString v ++ ")"
  | .SetExp v val => "(set! " ++ v ++ " " ++ unparseC val ++ ")"

/-- Space-separated rendering of an expression sequence. -/
def unparseCList : List CExp → String
  | [] => ""
  | [e] => unparseC e
  | e :: es => unparseC e ++ " " ++ unparseCList es

/-- Rendering of a binding list. -/
def unparseBList : List (String × TExp × CExp) → String
  | [] => ""
  | (v, te, val) :: bs =>
    "((" ++ v ++ " : " ++ unparseTE te ++ ") " ++ unparseC val ++ ")" ++ unparseBList bs

end

/-- Modelled from the spec: `format` of `shared/format.ts` (a diagnostic
renderer used in the `Unknown type` and `letrec` failure messages); the
same rendering as the pretty-printer. -/
def format (e : CExp) : String := unparseC e

/-- Character-list prefix test, for stating facts about diagnostic
messages. -/
def matchesAt : List Char → List Char → Bool
  | [], _ => true
  | _ :: _, [] => false
  | c :: cs, d :: ds => c == d && matchesAt cs ds

/-- Substring occurrence test over character lists, for stating facts
about diagnostic messages (`occursIn needle hay`). -/
def occursIn (needle : List Char) : List Char → Bool
  | [] => matchesAt needle []
  | c :: t => matchesAt needle (c :: t) || occursIn needle t

/-- `checkEqualType(te1, te2, exp)` from `L5-typecheck.ts` (lines 22-27):
success exactly when the two types are structurally equal, else a failure
embedding both printed types and the printed offending expression.  The
printed expression is passed as the already-rendered string. -/
def checkEqualType (te1 te2 : TExp) (expStr : String) : Result Bool :=
  if teq te1 te2 then .Ok true
  else
    (unparseTExp te1).bind fun s1 =>
      (unparseTExp te2).bind fun s2 =>
        .Failure ("Incompatible types: " ++ s1 ++ " and " ++ s2 ++ " in " ++ expStr)

/-- JavaScript string concatenation applied to a non-primitive object:
`typeofDefine` (line 268-269) concatenates `unparseTExp(...)` — a `Result`
object, not a string — so `+` coerces it via `Object.prototype.toString`
to the fixed text `[object Object]`, for any argument. -/
def jsToString (_r : Result String) : String := "[object Object]"

/-- `parseTE('(number * number -> number)')` (line 109). -/
def numOpTExp : Result TExp :=
  .Ok (.ProcTExp [.NumTExp, .NumTExp] .NumTExp)

/-- `parseTE('(number * number -> boolean)')` (line 110). -/
def numCompTExp : Result TExp :=
  .Ok (.ProcTExp [.NumTExp, .NumTExp] .BoolTExp)

/-- `parseTE('(boolean * boolean -> boolean)')` (line 111). -/
def boolOpTExp : Result TExp :=
  .Ok (.ProcTExp [.BoolTExp, .BoolTExp] .BoolTExp)

/-- `typeofPrim` from `L5-typecheck.ts` (lines 114-140): the primitive
signature table.  Each `parseTE` call is applied to a fixed literal
signature string, so the type-variable names it yields are the fixed names
written in those strings (`T`, `T1`, `T2`; `parseTE` of `TExp.ts` is the
out-of-scope parser, which constructs type-expression values from the
text it is given — spec §6). -/
def typeofPrim (op : String) : Result TExp :=
  if op = "+" then numOpTExp
  else if op = "-" then numOpTExp
  else if op = "*" then numOpTExp
  else if op = "/" then numOpTExp
  else if op = "and" then boolOpTExp
  else if op = "or" then boolOpTExp
  else if op = ">" then numCompTExp
  else if op = "<" then numCompTExp
  else if op = "=" then numCompTExp
  else if op = "number?" then .Ok (.ProcTExp [.TVar "T"] .BoolTExp)
  else if op = "boolean?" then .Ok (.ProcTExp [.TVar "T"] .BoolTExp)
  else if op = "string?" then .Ok (.ProcTExp [.TVar "T"] .BoolTExp)
  else if op = "list?" then .Ok (.ProcTExp [.TVar "T"] .BoolTExp)
  else if op = "pair?" then .Ok (.ProcTExp [.TVar "T"] .BoolTExp)
  else if op = "symbol?" then .Ok (.ProcTExp [.TVar "T"] .BoolTExp)
  else if op = "not" then .Ok (.ProcTExp [.BoolTExp] .BoolTExp)
  else if op = "eq?" then .Ok (.ProcTExp [.TVar "T1", .TVar "T2"] .BoolTExp)
  else if op = "string=?" then .Ok (.ProcTExp [.TVar "T1", .TVar "T2"] .BoolTExp)
  else if op = "display" then .Ok (.ProcTExp [.TVar "T"] .VoidTExp)
  else if op = "newline" then .Ok (.ProcTExp [] .VoidTExp)
  else if op = "cons" then
    .Ok (.ProcTExp [.TVar "T1", .TVar "T2"] (.PairTExp (.TVar "T1") (.TVar "T2")))
  else if op = "car" then
    .Ok (.ProcTExp [.PairTExp (.TVar "T1") (.TVar "T2")] (.TVar "T1"))
  else if op = "cdr" then
    .Ok (.ProcTExp [.PairTExp (.TVar "T1") (.TVar "T2")] (.TVar "T2"))
  else .Failure ("Primitive not yet implemented: " ++ op)

/-- The component typing of `typeofCompoundSExp` (lines 91-101): the type
of one side of a quoted pair is decided by that side's immediate runtime
tag alone — `typeof val === 'number'` gives Number, `'boolean'` gives
Boolean, `'string'` gives String, and a symbol or anything else (empty or
nested compound) gives Literal. -/
def sexpComponentTE : SExpValue → TExp
  | .num _ => .NumTExp
  | .bool _ => .BoolTExp
  | .str _ => .StrTExp
  | _ => .LiteralTExp

/-- `typeofCompoundSExp` from `L5-typecheck.ts` (lines 88-106): a pair
value gets `Pair(leftType, rightType)` from the two components' immediate
tags; a non-pair falls through to Literal. -/
def typeofCompoundSExp (val : SExpValue) : Result TExp :=
  match val with
  | .compound v1 v2 => .Ok (.PairTExp (sexpComponentTE v1) (sexpComponentTE v2))
  | _ => .Ok .LiteralTExp

/-- `typeofLit` from `L5-typecheck.ts` (lines 81-85): compound S-expressions
go to `typeofCompoundSExp`; everything else in quotes is Literal. -/
def typeofLit (val : SExpValue) : Result TExp :=
  match val with
  | .compound _ _ => typeofCompoundSExp val
  | _ => .Ok .LiteralTExp

/-- `isProcExp` applied to a binding's value, as in the `allT(isProcExp,
procs)` guard of `typeofLetrec` (line 243). -/
def isProcExpB : CExp → Bool
  | .ProcExp _ _ _ => true
  | _ => false

/-- `allT(isProcExp, procs)`: every bound value of the letrec is a
procedure literal. -/
def allProcs (bindings : List LBind) : Bool :=
  bindings.all fun b => isProcExpB b.2.2

/-- The arrow type a letrec builds for one binding (lines 245-249): the
bound procedure's declared parameter types and declared return type, with
no body inspection.  The non-procedure branch is unreachable behind the
`allT(isProcExp, ...)` guard. -/
def letrecProcTE : LBind → TExp
  | (_, _, .ProcExp args ret _) => .ProcTExp (args.map Prod.snd) ret
  | _ => .ProcTExp [] .VoidTExp

/-- The declared return type of a letrec-bound procedure (`tis`, line 248).
The non-procedure branch is unreachable behind the guard. -/
def letrecReturnTE : LBind → TExp
  | (_, _, .ProcExp _ ret _) => ret
  | _ => .VoidTExp

/-- The `zipWithResult((typeI, ti) => checkEqualType(typeI, ti, exp), ...)`
of `typeofLetrec` (lines 253-254): check each computed body type against
the declared return type in order, short-circuiting at the first failure.
The two lists always have equal length at the call site. -/
def checkEqualTypes : List TExp → List TExp → String → Result Bool
  | t :: ts, r :: rs, s =>
    (checkEqualType t r s).bind fun _ => checkEqualTypes ts rs s
  | _, _, _ => .Ok true

theorem sizeOf_pos_cexp (e : CExp) : 0 < sizeOf e := by
  cases e <;> simp_arith

theorem sizeOf_pos_texp (t : TExp) : 0 < sizeOf t := by
  cases t <;> simp_arith

theorem sizeOf_pos_list {α : Type} [SizeOf α] (l : List α) : 0 < sizeOf l := by
  cases l <;> simp_arith

mutual

/-- The typing-engine dispatch `typeofExp` of `L5-typecheck.ts`
(lines 43-58) restricted to the `CExp` members of `Parsed` (the define and
program members are the other constructors of `Parsed`, dispatched by
`typeofExp` below).  The `typeofIf` (lines 148-159) and `typeofProc`
(lines 165-171) rules are inlined at their dispatch sites.  `SetExp` has
no rule and falls to the catch-all `Unknown type` failure (line 58). -/
def typeofCExp : CExp → TEnv → Result TExp
  | .NumExp _, _ => .Ok .NumTExp
  | .BoolExp _, _ => .Ok .BoolTExp
  | .StrExp _, _ => .Ok .StrTExp
  | .PrimOp op, _ => typeofPrim op
  | .VarRef v, tenv => applyTEnv tenv v
  | .IfExp test thenE altE, tenv =>
    let testTE := typeofCExp test tenv
    let thenTE := typeofCExp thenE tenv
    let altTE := typeofCExp altE tenv
    let expStr := unparseC (.IfExp test thenE altE)
    let constraint1 := testTE.bind fun t => checkEqualType t .BoolTExp expStr
    let constraint2 :=
      thenTE.bind fun t => altTE.bind fun a => checkEqualType t a expStr
    constraint1.bind fun _ => constraint2.bind fun _ => thenTE
  | .ProcExp args returnTE body, tenv =>
    let argsTEs := args.map Prod.snd
    let extTEnv := TEnv.makeExtendTEnv (args.map Prod.fst) argsTEs tenv
    let expStr := unparseC (.ProcExp args returnTE body)
    let constraint1 :=
      (typeofExps body extTEnv).bind fun bodyTE =>
        checkEqualType bodyTE returnTE expStr
    constraint1.bind fun _ => .Ok (.ProcTExp argsTEs returnTE)
  | .AppExp rator rands, tenv => typeofApp rator rands tenv
  | .LetExp bindings body, tenv => typeofLet bindings body tenv
  | .LetrecExp bindings body, tenv => typeofLetrec bindings body tenv
  | .LitExp v, _ => typeofLit v
  | .SetExp v val, _ => .Failure ("Unknown type: " ++ format (.SetExp v val))
termination_by e tenv => sizeOf e
decreasing_by
  all_goals simp_wf
  all_goals omega


/-- `typeofExps` (lines 63-67): check a sequence in order, return the type
of the last expression; an empty sequence fails. -/
def typeofExps : List CExp → TEnv → Result TExp
  | [], _ => .Failure "Unexpected empty list of expressions"
  | [e], tenv => typeofCExp e tenv
  | e :: es, tenv => (typeofCExp e tenv).bind fun _ => typeofExps es tenv
termination_by es tenv => sizeOf es
decreasing_by
  all_goals simp_wf
  all_goals omega


/-- `typeofApp` (lines 181-210): the operator must have an arrow type, the
rand count must match the arrow's parameter count, then every rand is
unified in order against its declared parameter type through one
substitution map created fresh (`new Map()`, here `[]`) for this
application; on success the declared result type is concretised through
the final substitution. -/
def typeofApp (rator : CExp) (rands : List CExp) (tenv : TEnv) : Result TExp :=
  (typeofCExp rator tenv).bind fun ratorTE =>
    match ratorTE with
    | .ProcTExp paramTEs returnTE =>
      if rands.length ≠ paramTEs.length then
        .Failure ("Wrong parameter numbers passed to proc: " ++
          unparseC (.AppExp rator rands))
      else
        (typeofRands rands paramTEs tenv [] (unparseC (.AppExp rator rands))).bind
          fun substitution => .Ok (substituteTypeVars returnTE substitution)
    | _ =>
      .Failure ("Application of non-procedure: " ++ unparseTE ratorTE ++
        " in " ++ unparseC (.AppExp rator rands))
termination_by sizeOf rator + sizeOf rands
decreasing_by
  all_goals simp_wf
  all_goals
    (have h1 := sizeOf_pos_cexp rator
     have h2 := sizeOf_pos_list rands
     omega)


/-- The rand loop of `typeofApp` (lines 195-206): type-check each rand in
order (a rand failure is returned unchanged), unify its type against the
corresponding declared parameter type threading the one substitution map,
and fail the whole application at the first unification failure.  The
second list is never shorter at the call site (arity was checked). -/
def typeofRands : List CExp → List TExp → TEnv → Subst → String → Result Subst
  | [], _, _, subst, _ => .Ok subst
  | r :: rs, p :: ps, tenv, subst, appStr =>
    (typeofCExp r tenv).bind fun randTE =>
      let u := unifyTypes p randTE subst
      if u.1 then typeofRands rs ps tenv u.2 appStr
      else .Failure ("Type mismatch in application: " ++ appStr)
  | _ :: _, [], _, subst, _ => .Ok subst
termination_by rands params tenv subst appStr => sizeOf rands
decreasing_by
  all_goals simp_wf
  all_goals omega


/-- `typeofLet` (lines 219-227): validate every binding first — each value
expression is checked in the original environment `tenv` and its type must
equal the declared one — then check the body in `tenv` extended with one
frame holding all bound names simultaneously. -/
def typeofLet (bindings : List LBind) (body : List CExp) (tenv : TEnv) : Result TExp :=
  let expStr := unparseC (.LetExp bindings body)
  (typeofLetVals bindings tenv expStr).bind fun _ =>
    typeofExps body
      (TEnv.makeExtendTEnv (bindings.map fun b => b.1)
        (bindings.map fun b => b.2.1) tenv)
termination_by sizeOf bindings + sizeOf body
decreasing_by
  all_goals simp_wf
  all_goals
    (have h1 := sizeOf_pos_list bindings
     have h2 := sizeOf_pos_list body
     omega)


/-- The `zipWithResult((varTE, val) => bind(typeofExp(val, tenv), ...))`
constraint pass of `typeofLet` (lines 223-225): each binding's value is
typed in the unchanged `tenv` and compared to its declared type, in order,
short-circuiting at the first failure. -/
def typeofLetVals : List LBind → TEnv → String → Result Bool
  | [], _, _ => .Ok true
  | (_, varTE, val) :: rest, tenv, expStr =>
    (typeofCExp val tenv).bind fun typeOfVal =>
      (checkEqualType varTE typeOfVal expStr).bind fun _ =>
        typeofLetVals rest tenv expStr
termination_by bindings tenv expStr => sizeOf bindings
decreasing_by
  all_goals simp_wf
  all_goals omega


/-- `typeofLetrec` (lines 240-256): all bound values must be procedure
literals, else an immediate failure; the bound names' arrow types are
built from the procedures' declared annotations only and pushed as one
frame (`tenvBody`); every procedure body is then checked in `tenvBody`
extended with its own parameters; each computed body type must equal the
declared return type; finally the letrec body is checked in `tenvBody`. -/
def typeofLetrec (bindings : List LBind) (body : List CExp) (tenv : TEnv) : Result TExp :=
  if allProcs bindings then
    let tenvBody :=
      TEnv.makeExtendTEnv (bindings.map fun b => b.1)
        (bindings.map letrecProcTE) tenv
    let expStr := unparseC (.LetrecExp bindings body)
    (typeofLetrecBodies bindings tenvBody).bind fun types =>
      (checkEqualTypes types (bindings.map letrecReturnTE) expStr).bind fun _ =>
        typeofExps body tenvBody
  else
    .Failure ("letrec - only support binding of procedures - " ++
      format (.LetrecExp bindings body))
termination_by sizeOf bindings + sizeOf body
decreasing_by
  all_goals simp_wf
  all_goals
    (have h1 := sizeOf_pos_list bindings
     have h2 := sizeOf_pos_list body
     omega)


/-- The `zipWithResult((bodyI, tenvI) => typeofExps(bodyI, tenvI), ...)`
pass of `typeofLetrec` (lines 250-252): each bound procedure's body is
checked in `tenvBody` further extended with that procedure's own
parameters; the computed types are collected in order.  The non-procedure
branch is unreachable behind the `allProcs` guard. -/
def typeofLetrecBodies : List LBind → TEnv → Result (List TExp)
  | [], _ => .Ok []
  | (_, _, .ProcExp args _ pbody) :: rest, tenvBody =>
    let tenvI :=
      TEnv.makeExtendTEnv (args.map Prod.fst) (args.map Prod.snd) tenvBody
    (typeofExps pbody tenvI).bind fun t =>
      (typeofLetrecBodies rest tenvBody).bind fun ts => .Ok (t :: ts)
  | _ :: _, _ => .Failure "letrec - only support binding of procedures"
termination_by bindings tenvBody => sizeOf bindings
decreasing_by
  all_goals simp_wf
  all_goals omega


/-- `typeofDefine` (lines 265-270): Void when the value's computed type
structurally equals the declared type; otherwise a failure built from the
fixed text plus the JS coercions of the two `Result`-valued
`unparseTExp` calls (so `[object Object]`, or `unknown` when the value
expression itself failed).  Note: when `typeofExp(exp.val, tenv)` fails,
that inner failure is not returned — this branch replaces it. -/
def typeofDefine (v : String) (texp : TExp) (val : CExp) (tenv : TEnv) : Result TExp :=
  let valTE := typeofCExp val tenv
  let expStr := "(define (" ++ v ++ " : " ++ unparseTE texp ++ ") " ++ unparseC val ++ ")"
  let constraint := valTE.bind fun valType => checkEqualType valType texp expStr
  if constraint.isOk then .Ok .VoidTExp
  else
    .Failure ("VarDecl type different from val type, types:" ++
      (match valTE with
       | .Ok t => jsToString (unparseTExp t)
       | .Failure _ => "unknown") ++
      " and " ++ jsToString (unparseTExp texp))

/-- The `recur` loop of `typeofProgram` (lines 278-282): empty program is
Void; a single remaining form is dispatched to `typeofExp`; a leading
define is checked and then extends the running environment for the rest;
any other leading form is checked and its result discarded. -/
def typeofProgramRec : List Exp → TEnv → Result TExp
  | [], _ => .Ok .VoidTExp
  | [e], env =>
    match e with
    | .C ce => typeofCExp ce env
    | .DefineExp v texp val => typeofDefine v texp val env
  | .DefineExp v texp val :: rest, env =>
    (typeofDefine v texp val env).bind fun _ =>
      typeofProgramRec rest (TEnv.makeExtendTEnv [v] [texp] env)
  | .C ce :: rest, env =>
    (typeofCExp ce env).bind fun _ => typeofProgramRec rest env
termination_by remaining env => sizeOf remaining
decreasing_by
  all_goals simp_wf
  all_goals omega


/-- The full `typeofExp` dispatch over `Parsed` (lines 43-58): a `CExp`
goes to its rule, a define to `typeofDefine`, a program to `typeofProgram`
(which starts from the empty environment, line 284). -/
def typeofExp : Parsed → TEnv → Result TExp
  | .C e, tenv => typeofCExp e tenv
  | .DefineExp v texp val, tenv => typeofDefine v texp val tenv
  | .Program exps, _ => typeofProgramRec exps TEnv.makeEmptyTEnv

end

/-- `typeofProgram` (lines 275-285): run the left-to-right loop starting
from the empty type environment. -/
def typeofProgram (exps : List Exp) : Result TExp :=
  typeofProgramRec exps TEnv.makeEmptyTEnv

/-!
## Theorems

One theorem (plus, where needed, a witness or counterexample) per claim of
the specification review.
-/

/-- C5: `unify(expected, actual, subst)` — a type-variable `expected`
succeeds iff the name is unbound in `subst` (binding it to `actual`) or its
existing binding structurally equals `actual`; two atomic types succeed iff
structurally equal; two pair types recurse component-wise; every other
combination — including Arrow against Arrow — does not recurse and succeeds
iff the two types are plainly structurally equal. -/
theorem unifyTypes_spec :
    (∀ (v : String) (actual : TExp) (subst : Subst),
        substLookup subst v = none →
        unifyTypes (.TVar v) actual subst = (true, (v, actual) :: subst)) ∧
    (∀ (v : String) (actual existing : TExp) (subst : Subst),
        substLookup subst v = some existing →
        ((unifyTypes (.TVar v) actual subst).1 = true ↔ existing = actual) ∧
        (unifyTypes (.TVar v) actual subst).2 = subst) ∧
    (∀ (expected actual : TExp) (subst : Subst),
        isAtomicTExp expected = true → isAtomicTExp actual = true →
        ((unifyTypes expected actual subst).1 = true ↔ expected = actual) ∧
        (unifyTypes expected actual subst).2 = subst) ∧
    (∀ (f1 s1 f2 s2 : TExp) (subst : Subst),
        unifyTypes (.PairTExp f1 s1) (.PairTExp f2 s2) subst =
          (if (unifyTypes f1 f2 subst).1 then
             unifyTypes s1 s2 (unifyTypes f1 f2 subst).2
           else (false, (unifyTypes f1 f2 subst).2))) ∧
    (∀ (expected actual : TExp) (subst : Subst),
        isTVar expected = false →
        (isAtomicTExp expected = false ∨ isAtomicTExp actual = false) →
        (isPairTExp expected = false ∨ isPairTExp actual = false) →
        ((unifyTypes expected actual subst).1 = true ↔ expected = actual) ∧
        (unifyTypes expected actual subst).2 = subst) ∧
    unifyTypes (.ProcTExp [.TVar "T"] .NumTExp) (.ProcTExp [.NumTExp] .NumTExp) []
      = (false, []) := by
  refine ⟨?_, ?_, ?_, ?_, ?_, ?_⟩
  · intro v actual subst h
    simp [unifyTypes, h]
  · intro v actual existing subst h
    simp [unifyTypes, h, teq_iff]
  · intro expected actual subst h1 h2
    cases expected <;> simp_all [isAtomicTExp] <;>
      simp [unifyTypes, isAtomicTExp, h2, teq_iff]
  · intro f1 s1 f2 s2 subst
    simp [unifyTypes, isAtomicTExp]
  · intro expected actual subst h1 h2 h3
    cases expected <;> cases actual <;>
      simp_all [isTVar, isAtomicTExp, isPairTExp] <;>
      simp [unifyTypes, isAtomicTExp, teq_iff, teq, Bool.and_eq_true, teqList,
            TExp.ProcTExp.injEq, teqList_iff]
  · simp [unifyTypes, isAtomicTExp, teq, teqList]

/-- Witness for `unifyTypes_spec`: the unbound-variable case binds, and two
distinct atomic types fail, at concrete inputs. -/
theorem unifyTypes_spec_witness :
    unifyTypes (.TVar "T") .NumTExp [] = (true, [("T", .NumTExp)]) ∧
    (((unifyTypes .NumTExp .BoolTExp []).1 = true ↔ TExp.NumTExp = TExp.BoolTExp) ∧
      (unifyTypes .NumTExp .BoolTExp []).2 = ([] : Subst)) :=
  ⟨unifyTypes_spec.1 "T" .NumTExp [] rfl,
   unifyTypes_spec.2.2.1 .NumTExp .BoolTExp [] rfl rfl⟩

/-- C9: a non-pair quoted value has type Literal; a pair-shaped quoted
value has type Pair of its components' immediate-tag types, where a
number gives Number, a boolean Boolean, a string String, and a symbol,
the empty list or a nested compound collapses to Literal. -/
theorem typeofLit_spec :
    (∀ v : SExpValue, isCompoundSExp v = false → typeofLit v = .Ok .LiteralTExp) ∧
    (∀ a b : SExpValue,
        typeofLit (.compound a b) =
          .Ok (.PairTExp (sexpComponentTE a) (sexpComponentTE b))) ∧
    (∀ n, sexpComponentTE (.num n) = .NumTExp) ∧
    (∀ b, sexpComponentTE (.bool b) = .BoolTExp) ∧
    (∀ s, sexpComponentTE (.str s) = .StrTExp) ∧
    (∀ s, sexpComponentTE (.sym s) = .LiteralTExp) ∧
    (∀ a b, sexpComponentTE (.compound a b) = .LiteralTExp) ∧
    sexpComponentTE .empty = .LiteralTExp := by
  refine ⟨?_, ?_, ?_, ?_, ?_, ?_, ?_, rfl⟩
  · intro v h
    cases v <;> simp_all [isCompoundSExp, typeofLit]
  · intro a b
    rfl
  all_goals intros
  all_goals rfl

/-- Witness for `typeofLit_spec`: a quoted symbol is Literal. -/
theorem typeofLit_spec_witness :
    typeofLit (.sym "abc") = .Ok .LiteralTExp :=
  typeofLit_spec.1 (.sym "abc") rfl

/-- C10: `typeofExp` is total — every parsed form yields either a type or
a failure value — and a `set!` form, which no rule covers, falls to the
catch-all branch and is rejected with an `Unknown type` failure. -/
theorem typeofExp_total_spec :
    (∀ (p : Parsed) (tenv : TEnv),
        (∃ t, typeofExp p tenv = .Ok t) ∨ (∃ m, typeofExp p tenv = .Failure m)) ∧
    (∀ (v : String) (val : CExp) (tenv : TEnv),
        typeofCExp (.SetExp v val) tenv =
          .Failure ("Unknown type: " ++ format (.SetExp v val)) ∧
        typeofExp (.C (.SetExp v val)) tenv =
          .Failure ("Unknown type: " ++ format (.SetExp v val))) := by
  constructor
  · intro p tenv
    cases h : typeofExp p tenv with
    | Ok t => exact Or.inl ⟨t, rfl⟩
    | Failure m => exact Or.inr ⟨m, rfl⟩
  · intro v val tenv
    constructor
    · simp [typeofCExp]
    · simp [typeofExp, typeofCExp]

/-- C2 counterexample: `typeofPrim` is a pure function of the operator
name, and for `number?` it always returns the one signature
`(T -> boolean)` whose type-variable name is the fixed string `"T"`
written in the source's `parseTE('(T -> boolean)')` — so two lookups at
unrelated call sites yield the same variable name, not fresh, distinct
names. -/
theorem typeofPrim_counterexample :
    typeofPrim "number?" = .Ok (.ProcTExp [.TVar "T"] .BoolTExp) := by
  rfl

/-- C2 (amended): every lookup of the same generic primitive returns the
identical signature with the fixed type-variable names written in the
source (`T`, or `T1`/`T2`); cross-application leakage is nevertheless
impossible because `typeofApp` allocates a fresh, empty substitution map
for each application (the `[]` below). -/
theorem typeofPrim_spec :
    typeofPrim "number?" = .Ok (.ProcTExp [.TVar "T"] .BoolTExp) ∧
    typeofPrim "boolean?" = .Ok (.ProcTExp [.TVar "T"] .BoolTExp) ∧
    typeofPrim "string?" = .Ok (.ProcTExp [.TVar "T"] .BoolTExp) ∧
    typeofPrim "list?" = .Ok (.ProcTExp [.TVar "T"] .BoolTExp) ∧
    typeofPrim "pair?" = .Ok (.ProcTExp [.TVar "T"] .BoolTExp) ∧
    typeofPrim "symbol?" = .Ok (.ProcTExp [.TVar "T"] .BoolTExp) ∧
    typeofPrim "eq?" = .Ok (.ProcTExp [.TVar "T1", .TVar "T2"] .BoolTExp) ∧
    typeofPrim "string=?" = .Ok (.ProcTExp [.TVar "T1", .TVar "T2"] .BoolTExp) ∧
    typeofPrim "display" = .Ok (.ProcTExp [.TVar "T"] .VoidTExp) ∧
    typeofPrim "cons" =
      .Ok (.ProcTExp [.TVar "T1", .TVar "T2"] (.PairTExp (.TVar "T1") (.TVar "T2"))) ∧
    typeofPrim "car" =
      .Ok (.ProcTExp [.PairTExp (.TVar "T1") (.TVar "T2")] (.TVar "T1")) ∧
    typeofPrim "cdr" =
      .Ok (.ProcTExp [.PairTExp (.TVar "T1") (.TVar "T2")] (.TVar "T2")) ∧
    (∀ (rator : CExp) (rands : List CExp) (tenv : TEnv) (ps : List TExp) (r : TExp),
        typeofCExp rator tenv = .Ok (.ProcTExp ps r) →
        rands.length = ps.length →
        typeofApp rator rands tenv =
          (typeofRands rands ps tenv [] (unparseC (.AppExp rator rands))).bind
            fun substitution => .Ok (substituteTypeVars r substitution)) := by
  refine ⟨rfl, rfl, rfl, rfl, rfl, rfl, rfl, rfl, rfl, rfl, rfl, rfl, ?_⟩
  intro rator rands tenv ps r h hlen
  simp [typeofApp, h, Result.bind, hlen]

/-- Witness for `typeofPrim_spec`: two independent applications of `eq?`
each start from the fresh empty substitution map. -/
theorem typeofPrim_spec_witness :
    typeofCExp (.PrimOp "eq?") .makeEmptyTEnv =
      .Ok (.ProcTExp [.TVar "T1", .TVar "T2"] .BoolTExp) ∧
    typeofApp (.PrimOp "eq?") [.NumExp 1, .BoolExp true] .makeEmptyTEnv =
      (typeofRands [.NumExp 1, .BoolExp true] [.TVar "T1", .TVar "T2"]
          .makeEmptyTEnv []
          (unparseC (.AppExp (.PrimOp "eq?") [.NumExp 1, .BoolExp true]))).bind
        fun substitution => .Ok (substituteTypeVars .BoolTExp substitution) := by
  refine ⟨by simp [typeofCExp, typeofPrim], ?_⟩
  exact typeofPrim_spec.2.2.2.2.2.2.2.2.2.2.2.2
    (.PrimOp "eq?") [.NumExp 1, .BoolExp true] .makeEmptyTEnv
    [.TVar "T1", .TVar "T2"] .BoolTExp (by simp [typeofCExp, typeofPrim]) rfl

/-- C4 counterexample: a define whose declared type is `number` and whose
value is the boolean `#t` fails, but the failure message is the fixed text
with two `[object Object]` placeholders (the JS coercion of the
`Result`-valued `unparseTExp` calls), and contains neither printed type
form (`number` or `boolean`). -/
theorem typeofDefine_message_counterexample :
    typeofDefine "x" .NumTExp (.BoolExp true) .makeEmptyTEnv =
      .Failure "VarDecl type different from val type, types:[object Object] and [object Object]" ∧
    unparseTExp .NumTExp = .Ok "number" ∧
    unparseTExp .BoolTExp = .Ok "boolean" ∧
    occursIn "number".data
      "VarDecl type different from val type, types:[object Object] and [object Object]".data
      = false ∧
    occursIn "boolean".data
      "VarDecl type different from val type, types:[object Object] and [object Object]".data
      = false := by
  refine ⟨?_, rfl, rfl, ?_, ?_⟩
  · simp [typeofDefine, typeofCExp, checkEqualType, teq, Result.bind, Result.isOk,
          jsToString, unparseTExp]
  · decide
  · decide

/-- C4 (amended): a define returns Void when the value's computed type
structurally equals the declared type; otherwise it fails with the fixed
message `VarDecl type different from val type, types:[object Object] and
[object Object]` (with `unknown` in place of the first placeholder when
the value expression itself failed) — the message does not name the two
types. -/
theorem typeofDefine_spec :
    (∀ (v : String) (texp : TExp) (val : CExp) (tenv : TEnv) (t : TExp),
        typeofCExp val tenv = .Ok t → t = texp →
        typeofDefine v texp val tenv = .Ok .VoidTExp) ∧
    (∀ (v : String) (texp : TExp) (val : CExp) (tenv : TEnv) (t : TExp),
        typeofCExp val tenv = .Ok t → t ≠ texp →
        typeofDefine v texp val tenv =
          .Failure "VarDecl type different from val type, types:[object Object] and [object Object]") ∧
    (∀ (v : String) (texp : TExp) (val : CExp) (tenv : TEnv) (m : String),
        typeofCExp val tenv = .Failure m →
        typeofDefine v texp val tenv =
          .Failure "VarDecl type different from val type, types:unknown and [object Object]") := by
  refine ⟨?_, ?_, ?_⟩
  · intro v texp val tenv t h he
    subst he
    simp [typeofDefine, h, checkEqualType, teq_refl, Result.bind, Result.isOk]
  · intro v texp val tenv t h hne
    have hteq : teq t texp = false := by
      cases hq : teq t texp
      · rfl
      · exact absurd (teq_sound t texp hq) hne
    simp [typeofDefine, h, checkEqualType, hteq, Result.bind, Result.isOk, jsToString,
          unparseTExp]
  · intro v texp val tenv m h
    simp [typeofDefine, h, Result.bind, Result.isOk, jsToString, unparseTExp]

/-- Witness for `typeofDefine_spec`: a well-typed define yields Void, and
a string-valued define declared as `number` fails with the fixed
message. -/
theorem typeofDefine_spec_witness :
    typeofDefine "n" .NumTExp (.NumExp 7) .makeEmptyTEnv = .Ok .VoidTExp ∧
    typeofDefine "n" .NumTExp (.StrExp "seven") .makeEmptyTEnv =
      .Failure "VarDecl type different from val type, types:[object Object] and [object Object]" :=
  ⟨typeofDefine_spec.1 "n" .NumTExp (.NumExp 7) .makeEmptyTEnv .NumTExp
      (by simp [typeofCExp]) rfl,
   typeofDefine_spec.2.1 "n" .NumTExp (.StrExp "seven") .makeEmptyTEnv .StrTExp
      (by simp [typeofCExp]) (by simp)⟩

/-- C3 counterexample: a define whose value expression fails with an
unbound-variable error does not surface that message — `typeofDefine`
replaces it with its own fixed `VarDecl type different ...` message, so
failures do not propagate unchanged through every rule. -/
theorem typeofDefine_replaces_failure_counterexample :
    typeofCExp (.VarRef "y") .makeEmptyTEnv = .Failure "unbound variable: y" ∧
    typeofExp (.DefineExp "x" .NumTExp (.VarRef "y")) .makeEmptyTEnv =
      .Failure "VarDecl type different from val type, types:unknown and [object Object]" ∧
    ("unbound variable: y" : String) ≠
      "VarDecl type different from val type, types:unknown and [object Object]" := by
  refine ⟨?_, ?_, ?_⟩
  · simp [typeofCExp, applyTEnv]
  · simp [typeofExp, typeofDefine, typeofCExp, applyTEnv, Result.bind, Result.isOk,
          jsToString, unparseTExp]
  · decide

/-- C3 (amended): a subexpression failure short-circuits the enclosing
rule and is propagated unchanged by the sequence, application (both for
the operator and for a rand), conditional and let rules — but not by
define, which replaces any failure of its value expression with its own
fixed message. -/
theorem failure_propagation_spec :
    (∀ (e : CExp) (es : List CExp) (tenv : TEnv) (m : String),
        typeofCExp e tenv = .Failure m →
        typeofExps (e :: es) tenv = .Failure m) ∧
    (∀ (rator : CExp) (rands : List CExp) (tenv : TEnv) (m : String),
        typeofCExp rator tenv = .Failure m →
        typeofApp rator rands tenv = .Failure m) ∧
    (∀ (r : CExp) (rs : List CExp) (p : TExp) (ps : List TExp) (tenv : TEnv)
        (subst : Subst) (s m : String),
        typeofCExp r tenv = .Failure m →
        typeofRands (r :: rs) (p :: ps) tenv subst s = .Failure m) ∧
    (∀ (t th a : CExp) (tenv : TEnv) (m : String),
        typeofCExp t tenv = .Failure m →
        typeofCExp (.IfExp t th a) tenv = .Failure m) ∧
    (∀ (nm : String) (te : TExp) (val : CExp) (rest : List LBind) (tenv : TEnv)
        (s m : String),
        typeofCExp val tenv = .Failure m →
        typeofLetVals ((nm, te, val) :: rest) tenv s = .Failure m) ∧
    (∀ (v : String) (texp : TExp) (val : CExp) (tenv : TEnv) (m : String),
        typeofCExp val tenv = .Failure m →
        typeofExp (.DefineExp v texp val) tenv =
          .Failure "VarDecl type different from val type, types:unknown and [object Object]") := by
  refine ⟨?_, ?_, ?_, ?_, ?_, ?_⟩
  · intro e es tenv m h
    cases es with
    | nil => simpa [typeofExps] using h
    | cons e2 es2 => simp [typeofExps, h, Result.bind]
  · intro rator rands tenv m h
    simp [typeofApp, h, Result.bind]
  · intro r rs p ps tenv subst s m h
    simp [typeofRands, h, Result.bind]
  · intro t th a tenv m h
    simp [typeofCExp, h, Result.bind]
  · intro nm te val rest tenv s m h
    simp [typeofLetVals, h, Result.bind]
  · intro v texp val tenv m h
    simp [typeofExp, typeofDefine, h, Result.bind, Result.isOk, jsToString, unparseTExp]

/-- Witness for `failure_propagation_spec`: the unbound-variable failure
of `zz` propagates unchanged through a sequence head. -/
theorem failure_propagation_spec_witness :
    typeofExps [.VarRef "zz", .NumExp 1] .makeEmptyTEnv =
      .Failure "unbound variable: zz" :=
  failure_propagation_spec.1 (.VarRef "zz") [.NumExp 1] .makeEmptyTEnv
    "unbound variable: zz" (by simp [typeofCExp, applyTEnv])

/-- C6: programs are processed strictly left to right from the empty
environment; a non-final define, once it type-checks, extends the running
environment with its declared type before the rest is checked; a
non-final non-define form is checked and its result discarded; the
program's type is the final form's type, or Void for the empty program.
Consequently a form may reference an earlier define while a forward
reference to a later define fails as unbound (the two closing concrete
programs). -/
theorem typeofProgram_spec :
    (typeofProgram [] = .Ok .VoidTExp) ∧
    (∀ exps, typeofProgram exps = typeofProgramRec exps TEnv.makeEmptyTEnv) ∧
    (∀ (ce : CExp) (env : TEnv), typeofProgramRec [.C ce] env = typeofCExp ce env) ∧
    (∀ (v : String) (texp : TExp) (val : CExp) (env : TEnv),
        typeofProgramRec [.DefineExp v texp val] env = typeofDefine v texp val env) ∧
    (∀ (v : String) (texp : TExp) (val : CExp) (rest : List Exp) (env : TEnv),
        rest ≠ [] →
        typeofProgramRec (.DefineExp v texp val :: rest) env =
          (typeofDefine v texp val env).bind fun _ =>
            typeofProgramRec rest (TEnv.makeExtendTEnv [v] [texp] env)) ∧
    (∀ (ce : CExp) (rest : List Exp) (env : TEnv),
        rest ≠ [] →
        typeofProgramRec (.C ce :: rest) env =
          (typeofCExp ce env).bind fun _ => typeofProgramRec rest env) ∧
    (typeofProgram [.DefineExp "x" .NumTExp (.NumExp 1), .C (.VarRef "x")] =
      .Ok .NumTExp) ∧
    (typeofProgram [.C (.VarRef "x"), .DefineExp "x" .NumTExp (.NumExp 1)] =
      .Failure "unbound variable: x") := by
  refine ⟨?_, ?_, ?_, ?_, ?_, ?_, ?_, ?_⟩
  · simp [typeofProgram, typeofProgramRec]
  · intro exps
    rfl
  · intro ce env
    simp [typeofProgramRec]
  · intro v texp val env
    simp [typeofProgramRec]
  · intro v texp val rest env hne
    cases rest with
    | nil => exact absurd rfl hne
    | cons e2 es2 => simp [typeofProgramRec]
  · intro ce rest env hne
    cases rest with
    | nil => exact absurd rfl hne
    | cons e2 es2 => simp [typeofProgramRec]
  · simp [typeofProgram, typeofProgramRec, typeofDefine, typeofCExp, checkEqualType,
          teq, Result.bind, Result.isOk, applyTEnv, frameLookup]
  · simp [typeofProgram, typeofProgramRec, typeofCExp, applyTEnv, Result.bind]

/-- Witness for `typeofProgram_spec`: the define-then-rest equation at a
concrete two-form program. -/
theorem typeofProgram_spec_witness :
    typeofProgramRec [.DefineExp "k" .BoolTExp (.BoolExp true), .C (.VarRef "k")]
        TEnv.makeEmptyTEnv =
      (typeofDefine "k" .BoolTExp (.BoolExp true) TEnv.makeEmptyTEnv).bind fun _ =>
        typeofProgramRec [.C (.VarRef "k")]
          (TEnv.makeExtendTEnv ["k"] [.BoolTExp] TEnv.makeEmptyTEnv) :=
  typeofProgram_spec.2.2.2.2.1 "k" .BoolTExp (.BoolExp true) [.C (.VarRef "k")]
    TEnv.makeEmptyTEnv (by simp)

/-- C7: every let binding's value expression is type-checked in the
original, non-extended environment (the constraint pass carries `tenv`
unchanged, so a sibling reference fails as unbound — the first concrete
program); each computed type must equal the declared one (second concrete
program); only after all bindings validate is the environment extended
with a single frame holding all bound names simultaneously, in which the
body sequence is checked. -/
theorem typeofLet_spec :
    (∀ (bindings : List LBind) (body : List CExp) (tenv : TEnv),
        typeofLet bindings body tenv =
          (typeofLetVals bindings tenv (unparseC (.LetExp bindings body))).bind fun _ =>
            typeofExps body
              (TEnv.makeExtendTEnv (bindings.map fun b => b.1)
                (bindings.map fun b => b.2.1) tenv)) ∧
    (∀ (nm : String) (te : TExp) (val : CExp) (rest : List LBind) (tenv : TEnv)
        (s : String),
        typeofLetVals ((nm, te, val) :: rest) tenv s =
          (typeofCExp val tenv).bind fun typeOfVal =>
            (checkEqualType te typeOfVal s).bind fun _ =>
              typeofLetVals rest tenv s) ∧
    (∀ (tenv : TEnv) (s : String), typeofLetVals [] tenv s = .Ok true) ∧
    (typeofCExp
        (.LetExp [("a", .NumTExp, .NumExp 1), ("b", .NumTExp, .VarRef "a")]
          [.VarRef "b"]) .makeEmptyTEnv =
      .Failure "unbound variable: a") ∧
    (typeofCExp (.LetExp [("a", .NumTExp, .BoolExp true)] [.VarRef "a"])
        .makeEmptyTEnv =
      .Failure ("Incompatible types: number and boolean in " ++
        unparseC (.LetExp [("a", .NumTExp, .BoolExp true)] [.VarRef "a"]))) ∧
    (typeofCExp (.LetExp [("a", .NumTExp, .NumExp 1), ("b", .BoolTExp, .BoolExp true)]
        [.VarRef "b"]) .makeEmptyTEnv =
      .Ok .BoolTExp) := by
  refine ⟨?_, ?_, ?_, ?_, ?_, ?_⟩
  · intro bindings body tenv
    simp [typeofLet]
  · intro nm te val rest tenv s
    simp [typeofLetVals]
  · intro tenv s
    simp [typeofLetVals]
  · simp [typeofCExp, typeofLet, typeofLetVals, checkEqualType, teq, Result.bind,
          applyTEnv, frameLookup, typeofExps]
  · simp [typeofCExp, typeofLet, typeofLetVals, checkEqualType, teq, Result.bind,
          applyTEnv, frameLookup, typeofExps, unparseTExp, unparseTE]
  · simp [typeofCExp, typeofLet, typeofLetVals, checkEqualType, teq, Result.bind,
          applyTEnv, frameLookup, typeofExps]

/-- Witness for `typeofLet_spec`: the binding-validation equation at one
concrete binding, whose value is checked in the original environment. -/
theorem typeofLet_spec_witness :
    typeofLetVals [("w", .StrTExp, .StrExp "s")] .makeEmptyTEnv "ctx" =
      (typeofCExp (.StrExp "s") .makeEmptyTEnv).bind fun typeOfVal =>
        (checkEqualType .StrTExp typeOfVal "ctx").bind fun _ =>
          typeofLetVals [] .makeEmptyTEnv "ctx" :=
  typeofLet_spec.2.1 "w" .StrTExp (.StrExp "s") [] .makeEmptyTEnv "ctx"

/-- Helper: the guarded unfolding of `typeofLetrec` when every bound value
is a procedure literal. -/
theorem typeofLetrec_eq_of_allProcs (bindings : List LBind) (body : List CExp)
    (tenv : TEnv) (h : allProcs bindings = true) :
    typeofLetrec bindings body tenv =
      (typeofLetrecBodies bindings
          (TEnv.makeExtendTEnv (bindings.map fun b => b.1)
            (bindings.map letrecProcTE) tenv)).bind fun types =>
        (checkEqualTypes types (bindings.map letrecReturnTE)
            (unparseC (.LetrecExp bindings body))).bind fun _ =>
          typeofExps body
            (TEnv.makeExtendTEnv (bindings.map fun b => b.1)
              (bindings.map letrecProcTE) tenv) := by
  simp [typeofLetrec, h]

/-- Helper: the bodies pass of the mutually recursive pair `f`/`g`: each
body `(g n)` resp. `(f n)` is checked in the arrow-type frame extended
with the procedure's own parameter and computes `number`. -/
theorem letrec_mutual_bodies_eval :
    typeofLetrecBodies
      [("f", .NumTExp,
        .ProcExp [("n", .NumTExp)] .NumTExp [.AppExp (.VarRef "g") [.VarRef "n"]]),
       ("g", .NumTExp,
        .ProcExp [("n", .NumTExp)] .NumTExp [.AppExp (.VarRef "f") [.VarRef "n"]])]
      (TEnv.makeExtendTEnv ["f", "g"]
        [.ProcTExp [.NumTExp] .NumTExp, .ProcTExp [.NumTExp] .NumTExp]
        .makeEmptyTEnv) = .Ok [.NumTExp, .NumTExp] := by
  simp [typeofLetrecBodies, typeofExps, typeofCExp, typeofApp, typeofRands, applyTEnv,
        frameLookup, unifyTypes, substituteTypeVars, isAtomicTExp, teq, substLookup,
        Result.bind]

/-- Helper: the overall letrec body `(f 3)` computes `number` in the frame
holding only the bound arrow types. -/
theorem letrec_mutual_body_eval :
    typeofExps [.AppExp (.VarRef "f") [.NumExp 3]]
      (TEnv.makeExtendTEnv ["f", "g"]
        [.ProcTExp [.NumTExp] .NumTExp, .ProcTExp [.NumTExp] .NumTExp]
        .makeEmptyTEnv) = .Ok .NumTExp := by
  simp [typeofExps, typeofCExp, typeofApp, typeofRands, applyTEnv, frameLookup,
        unifyTypes, substituteTypeVars, isAtomicTExp, teq, substLookup, Result.bind]

/-- Helper: the bodies pass of the single binding whose body `n` computes
`number` (to disagree with the declared `boolean` return). -/
theorem letrec_single_bodies_eval :
    typeofLetrecBodies
      [("f", .NumTExp, .ProcExp [("n", .NumTExp)] .BoolTExp [.VarRef "n"])]
      (TEnv.makeExtendTEnv ["f"] [.ProcTExp [.NumTExp] .BoolTExp] .makeEmptyTEnv) =
      .Ok [.NumTExp] := by
  simp [typeofLetrecBodies, typeofExps, typeofCExp, applyTEnv, frameLookup, Result.bind]

/-- Helper: comparing computed `[number, number]` against declared
`[number, number]` succeeds, for any context string. -/
theorem checkEqualTypes_nums (s : String) :
    checkEqualTypes [.NumTExp, .NumTExp] [.NumTExp, .NumTExp] s = .Ok true := by
  simp [checkEqualTypes, checkEqualType, teq, Result.bind]

/-- Helper: comparing computed `[number]` against declared `[boolean]`
fails, naming both types and the context string. -/
theorem checkEqualTypes_num_bool (s : String) :
    checkEqualTypes [.NumTExp] [.BoolTExp] s =
      .Failure ("Incompatible types: number and boolean in " ++ s) := by
  simp [checkEqualTypes, checkEqualType, teq, unparseTExp, unparseTE, Result.bind]

/-- C8: a letrec fails immediately when some bound value is not a
procedure literal; otherwise the bound names' arrow types are built from
the procedures' declared annotations only and pushed as one frame
(enabling mutual recursion — the first concrete program below, where the
two bound procedures call each other); each procedure's body is checked in
that frame further extended with its own parameters and must equal the
declared return type, any disagreement failing the letrec (second
concrete program); the overall body is checked in the frame holding only
the bound arrow types. -/
theorem typeofLetrec_spec :
    (∀ (bindings : List LBind) (body : List CExp) (tenv : TEnv),
        allProcs bindings = false →
        typeofLetrec bindings body tenv =
          .Failure ("letrec - only support binding of procedures - " ++
            format (.LetrecExp bindings body))) ∧
    (∀ (bindings : List LBind) (body : List CExp) (tenv : TEnv),
        allProcs bindings = true →
        typeofLetrec bindings body tenv =
          (typeofLetrecBodies bindings
              (TEnv.makeExtendTEnv (bindings.map fun b => b.1)
                (bindings.map letrecProcTE) tenv)).bind fun types =>
            (checkEqualTypes types (bindings.map letrecReturnTE)
                (unparseC (.LetrecExp bindings body))).bind fun _ =>
              typeofExps body
                (TEnv.makeExtendTEnv (bindings.map fun b => b.1)
                  (bindings.map letrecProcTE) tenv)) ∧
    (∀ (nm : String) (te : TExp) (args : List (String × TExp)) (ret : TExp)
        (pbody : List CExp) (rest : List LBind) (tenvBody : TEnv),
        typeofLetrecBodies ((nm, te, .ProcExp args ret pbody) :: rest) tenvBody =
          (typeofExps pbody
              (TEnv.makeExtendTEnv (args.map Prod.fst) (args.map Prod.snd)
                tenvBody)).bind fun t =>
            (typeofLetrecBodies rest tenvBody).bind fun ts => .Ok (t :: ts)) ∧
    (∀ (nm : String) (te : TExp) (args : List (String × TExp)) (ret : TExp)
        (pbody : List CExp),
        letrecProcTE (nm, te, .ProcExp args ret pbody) =
          .ProcTExp (args.map Prod.snd) ret ∧
        letrecReturnTE (nm, te, .ProcExp args ret pbody) = ret) ∧
    (typeofCExp
        (.LetrecExp
          [("f", .NumTExp,
            .ProcExp [("n", .NumTExp)] .NumTExp [.AppExp (.VarRef "g") [.VarRef "n"]]),
           ("g", .NumTExp,
            .ProcExp [("n", .NumTExp)] .NumTExp [.AppExp (.VarRef "f") [.VarRef "n"]])]
          [.AppExp (.VarRef "f") [.NumExp 3]]) .makeEmptyTEnv =
      .Ok .NumTExp) ∧
    (typeofCExp
        (.LetrecExp
          [("f", .NumTExp, .ProcExp [("n", .NumTExp)] .BoolTExp [.VarRef "n"])]
          [.AppExp (.VarRef "f") [.NumExp 3]]) .makeEmptyTEnv =
      .Failure ("Incompatible types: number and boolean in " ++
        unparseC (.LetrecExp
          [("f", .NumTExp, .ProcExp [("n", .NumTExp)] .BoolTExp [.VarRef "n"])]
          [.AppExp (.VarRef "f") [.NumExp 3]]))) ∧
    (typeofCExp (.LetrecExp [("f", .NumTExp, .NumExp 3)] [.VarRef "f"])
        .makeEmptyTEnv =
      .Failure ("letrec - only support binding of procedures - " ++
        format (.LetrecExp [("f", .NumTExp, .NumExp 3)] [.VarRef "f"]))) := by
  refine ⟨?_, ?_, ?_, ?_, ?_, ?_, ?_⟩
  · intro bindings body tenv h
    simp [typeofLetrec, h]
  · intro bindings body tenv h
    exact typeofLetrec_eq_of_allProcs bindings body tenv h
  · intro nm te args ret pbody rest tenvBody
    simp [typeofLetrecBodies]
  · intro nm te args ret pbody
    exact ⟨rfl, rfl⟩
  · show typeofCExp _ _ = _
    rw [show typeofCExp
          (.LetrecExp
            [("f", .NumTExp,
              .ProcExp [("n", .NumTExp)] .NumTExp [.AppExp (.VarRef "g") [.VarRef "n"]]),
             ("g", .NumTExp,
              .ProcExp [("n", .NumTExp)] .NumTExp [.AppExp (.VarRef "f") [.VarRef "n"]])]
            [.AppExp (.VarRef "f") [.NumExp 3]]) .makeEmptyTEnv =
        typeofLetrec
          [("f", .NumTExp,
            .ProcExp [("n", .NumTExp)] .NumTExp [.AppExp (.VarRef "g") [.VarRef "n"]]),
           ("g", .NumTExp,
            .ProcExp [("n", .NumTExp)] .NumTExp [.AppExp (.VarRef "f") [.VarRef "n"]])]
          [.AppExp (.VarRef "f") [.NumExp 3]] .makeEmptyTEnv
      from by simp [typeofCExp]]
    rw [typeofLetrec_eq_of_allProcs
          [("f", .NumTExp,
            .ProcExp [("n", .NumTExp)] .NumTExp [.AppExp (.VarRef "g") [.VarRef "n"]]),
           ("g", .NumTExp,
            .ProcExp [("n", .NumTExp)] .NumTExp [.AppExp (.VarRef "f") [.VarRef "n"]])]
          [.AppExp (.VarRef "f") [.NumExp 3]] .makeEmptyTEnv rfl]
    simp only [List.map_cons, List.map_nil, letrecProcTE, letrecReturnTE]
    rw [letrec_mutual_bodies_eval]
    simp only [Result.bind]
    rw [checkEqualTypes_nums]
    simp only [Result.bind]
    exact letrec_mutual_body_eval
  · show typeofCExp _ _ = _
    rw [show typeofCExp
          (.LetrecExp
            [("f", .NumTExp, .ProcExp [("n", .NumTExp)] .BoolTExp [.VarRef "n"])]
            [.AppExp (.VarRef "f") [.NumExp 3]]) .makeEmptyTEnv =
        typeofLetrec
          [("f", .NumTExp, .ProcExp [("n", .NumTExp)] .BoolTExp [.VarRef "n"])]
          [.AppExp (.VarRef "f") [.NumExp 3]] .makeEmptyTEnv
      from by simp [typeofCExp]]
    rw [typeofLetrec_eq_of_allProcs
          [("f", .NumTExp, .ProcExp [("n", .NumTExp)] .BoolTExp [.VarRef "n"])]
          [.AppExp (.VarRef "f") [.NumExp 3]] .makeEmptyTEnv rfl]
    simp only [List.map_cons, List.map_nil, letrecProcTE, letrecReturnTE]
    rw [letrec_single_bodies_eval]
    simp only [Result.bind]
    rw [checkEqualTypes_num_bool]
  · simp [typeofCExp, typeofLetrec, allProcs, isProcExpB]

/-- Witness for `typeofLetrec_spec`: the structural equation for a
well-formed letrec, and the immediate failure on a non-procedure binding,
at concrete inputs. -/
theorem typeofLetrec_spec_witness :
    allProcs [("h", .NumTExp, .ProcExp [] .NumTExp [.NumExp 2])] = true ∧
    typeofLetrec [("h", .NumTExp, .ProcExp [] .NumTExp [.NumExp 2])] [.NumExp 9]
        .makeEmptyTEnv =
      (typeofLetrecBodies [("h", .NumTExp, .ProcExp [] .NumTExp [.NumExp 2])]
          (TEnv.makeExtendTEnv
            (([("h", .NumTExp, .ProcExp [] .NumTExp [.NumExp 2])] : List LBind).map fun b => b.1)
            (([("h", .NumTExp, .ProcExp [] .NumTExp [.NumExp 2])] : List LBind).map letrecProcTE)
            .makeEmptyTEnv)).bind fun types =>
        (checkEqualTypes types
            (([("h", .NumTExp, .ProcExp [] .NumTExp [.NumExp 2])] : List LBind).map letrecReturnTE)
            (unparseC (.LetrecExp [("h", .NumTExp, .ProcExp [] .NumTExp [.NumExp 2])]
              [.NumExp 9]))).bind fun _ =>
          typeofExps [.NumExp 9]
            (TEnv.makeExtendTEnv
              (([("h", .NumTExp, .ProcExp [] .NumTExp [.NumExp 2])] : List LBind).map fun b => b.1)
              (([("h", .NumTExp, .ProcExp [] .NumTExp [.NumExp 2])] : List LBind).map letrecProcTE)
              .makeEmptyTEnv) :=
  ⟨rfl,
   typeofLetrec_spec.2.1 [("h", .NumTExp, .ProcExp [] .NumTExp [.NumExp 2])]
     [.NumExp 9] .makeEmptyTEnv rfl⟩

/-- C1: an application whose operator type is not an Arrow fails as an
application of non-procedure; one whose rand count differs from the
Arrow's parameter count fails as an arity mismatch; otherwise the rands
are checked in order, each unified against the corresponding declared
parameter type through the single substitution map created fresh (`[]`)
for this application and threaded across all its positions, a unification
failure at any position failing the whole application; on success the
result is the declared result type with each bound type variable replaced
by its binding. -/
theorem typeofApp_spec :
    (∀ (rator : CExp) (rands : List CExp) (tenv : TEnv) (ratorTE : TExp),
        typeofCExp rator tenv = .Ok ratorTE →
        isProcTExp ratorTE = false →
        typeofApp rator rands tenv =
          .Failure ("Application of non-procedure: " ++ unparseTE ratorTE ++
            " in " ++ unparseC (.AppExp rator rands))) ∧
    (∀ (rator : CExp) (rands : List CExp) (tenv : TEnv) (ps : List TExp) (r : TExp),
        typeofCExp rator tenv = .Ok (.ProcTExp ps r) →
        rands.length ≠ ps.length →
        typeofApp rator rands tenv =
          .Failure ("Wrong parameter numbers passed to proc: " ++
            unparseC (.AppExp rator rands))) ∧
    (∀ (rator : CExp) (rands : List CExp) (tenv : TEnv) (ps : List TExp) (r : TExp),
        typeofCExp rator tenv = .Ok (.ProcTExp ps r) →
        rands.length = ps.length →
        typeofApp rator rands tenv =
          (typeofRands rands ps tenv [] (unparseC (.AppExp rator rands))).bind
            fun substitution => .Ok (substituteTypeVars r substitution)) ∧
    (∀ (r : CExp) (rs : List CExp) (p : TExp) (ps : List TExp) (tenv : TEnv)
        (subst : Subst) (appStr : String) (randTE : TExp),
        typeofCExp r tenv = .Ok randTE →
        typeofRands (r :: rs) (p :: ps) tenv subst appStr =
          (if (unifyTypes p randTE subst).1 then
             typeofRands rs ps tenv (unifyTypes p randTE subst).2 appStr
           else .Failure ("Type mismatch in application: " ++ appStr))) ∧
    (∀ (ps : List TExp) (tenv : TEnv) (subst : Subst) (appStr : String),
        typeofRands [] ps tenv subst appStr = .Ok subst) := by
  refine ⟨?_, ?_, ?_, ?_, ?_⟩
  · intro rator rands tenv ratorTE h hp
    cases ratorTE <;> simp_all [isProcTExp] <;> simp [typeofApp, h, Result.bind]
  · intro rator rands tenv ps r h hlen
    simp [typeofApp, h, Result.bind, hlen]
  · intro rator rands tenv ps r h hlen
    simp [typeofApp, h, Result.bind, hlen]
  · intro r rs p ps tenv subst appStr randTE h
    simp [typeofRands, h, Result.bind]
  · intro ps tenv subst appStr
    simp [typeofRands]

/-- Witness for `typeofApp_spec`: `(display 42)` runs the rand loop from
the fresh empty substitution; applying the number `1` fails as a
non-procedure; `(not)` fails the arity check. -/
theorem typeofApp_spec_witness :
    (typeofApp (.PrimOp "display") [.NumExp 42] .makeEmptyTEnv =
      (typeofRands [.NumExp 42] [.TVar "T"] .makeEmptyTEnv []
          (unparseC (.AppExp (.PrimOp "display") [.NumExp 42]))).bind
        fun substitution => .Ok (substituteTypeVars .VoidTExp substitution)) ∧
    typeofApp (.NumExp 1) [.NumExp 2] .makeEmptyTEnv =
      .Failure ("Application of non-procedure: " ++ unparseTE .NumTExp ++
        " in " ++ unparseC (.AppExp (.NumExp 1) [.NumExp 2])) ∧
    typeofApp (.PrimOp "not") [] .makeEmptyTEnv =
      .Failure ("Wrong parameter numbers passed to proc: " ++
        unparseC (.AppExp (.PrimOp "not") [])) :=
  ⟨typeofApp_spec.2.2.1 (.PrimOp "display") [.NumExp 42] .makeEmptyTEnv
      [.TVar "T"] .VoidTExp (by simp [typeofCExp, typeofPrim]) rfl,
   typeofApp_spec.1 (.NumExp 1) [.NumExp 2] .makeEmptyTEnv .NumTExp
      (by simp [typeofCExp]) rfl,
   typeofApp_spec.2.1 (.PrimOp "not") [] .makeEmptyTEnv [.BoolTExp] .BoolTExp
      (by simp [typeofCExp, typeofPrim]) (by simp)⟩

end L5
